import Mathlib

/-!
Shallow embedding of the veetility repository (rivaliq_functions.py and
vee_mails.py) for checking the natural-language specification against the
code.  Network I/O is modelled by passing in the remote responses
explicitly; the recursive polling loop is modelled with a fuel parameter;
Python exceptions are modelled with an explicit error type.
-/

namespace Veetility

/-- Python exceptions that the embedded code can raise.  `exn` models a
bare `raise Exception(msg)`; `typeError` models a `TypeError` raised by
the Python runtime (e.g. subscripting a non-subscriptable object);
`valueError` models `raise ValueError(msg)`. -/
inductive PyError where
  | exn (msg : String)
  | typeError (msg : String)
  | valueError (msg : String)
deriving DecidableEq, Repr

/-- One HTTP response as seen by the code: the status code, the raw body
text, and (for the bulk-download status endpoint) the fields of the parsed
JSON body that the code reads: `data['status']` and `data['href']`. -/
structure HttpResponse where
  status_code : Nat
  text : String
  jsonStatus : Nat
  jsonHref : String
deriving DecidableEq, Repr

/-- Errors of the pandas CSV reader that rivaliq_functions.py catches:
`pd.errors.EmptyDataError` and `pd.errors.ParserError`. -/
inductive PdError where
  | emptyData
  | parserError
deriving DecidableEq, Repr

/-- A parsed table: an ordered list of named columns and the data rows.
Cell values are kept as the raw text fields of the CSV (pandas dtype
inference is below the level of this model). -/
structure Table where
  columns : List String
  rows : List (List String)
deriving DecidableEq, Repr

/-- Split a character list at every occurrence of `sep` (helper for
modelling Python `str.split` and the line/field splitting of the CSV
reader; written by structural recursion so it evaluates in the kernel). -/
def splitOnCharAux (sep : Char) : List Char → List Char → List (List Char)
  | [], acc => [acc.reverse]
  | c :: cs, acc =>
    if c == sep then acc.reverse :: splitOnCharAux sep cs []
    else splitOnCharAux sep cs (c :: acc)

/-- Split a string at every occurrence of the character `sep`. -/
def splitChar (sep : Char) (s : String) : List String :=
  (splitOnCharAux sep s.data []).map String.mk

/-- Split a string into lines at newline characters, as Python
`str.split` with separator newline does. -/
def splitLines (s : String) : List String := splitChar (Char.ofNat 10) s

/-- Join a list of strings with a separator, as Python `sep.join` does. -/
def joinWith (sep : String) : List String → String
  | [] => ""
  | [s] => s
  | s :: ss => s ++ sep ++ joinWith sep ss

/-- Model of `pandas.read_csv(io.StringIO(text))` restricted to the
behaviour the repository relies on: an input with no non-blank line
raises `EmptyDataError`; otherwise the first non-blank line is the
header, fields are comma-separated, a data row with more fields than the
header raises `ParserError`, and the result keeps every cell as its raw
text. -/
def read_csv (text : String) : Except PdError Table :=
  let lines := (splitLines text).filter (fun l => l != "")
  match lines with
  | [] => .error .emptyData
  | header :: body =>
    let cols := splitChar (Char.ofNat 44) header
    let rows := body.map (fun l => splitChar (Char.ofNat 44) l)
    if rows.any (fun r => cols.length < r.length) then .error .parserError
    else .ok ⟨cols, rows⟩

/-- rivaliq_functions.py, `get_bulkDownload_status` (lines 171-189): one
status query.  The HTTP response the remote returns is passed in as
`resp`; the function returns the response when its status code is 200 and
otherwise prints and raises `Exception(f"Error: {status_code}")`. -/
def get_bulkDownload_status (resp : HttpResponse) : Except PyError HttpResponse :=
  if resp.status_code = 200 then .ok resp
  else .error (.exn ("Error: " ++ toString resp.status_code))

/-- Outcome of the polling loop: the download link (`return data['href']`),
a raised Python exception, or exhaustion of the fuel bound (the source
recursion has no bound of its own, so `outOfFuel` marks "still polling
after `fuel` queries"). -/
inductive PollResult where
  | link (href : String)
  | raised (e : PyError)
  | outOfFuel
deriving DecidableEq, Repr

/-- Which branch of `check_bulkDownload_status`'s dispatch fired on one
iteration: status 2 (ready), status 3 (failed), any other status
(in progress), or the final `else` for a non-200 response. -/
inductive PollBranch where
  | ready
  | failed
  | inProgress
  | non200
deriving DecidableEq, Repr

/-- Full account of one run of the polling loop: its outcome, how many
status queries it performed (one `requests.get` per call of
`get_bulkDownload_status`), the list of `time.sleep` durations in
seconds, and the branches taken. -/
structure PollTrace where
  result : PollResult
  queries : Nat
  sleeps : List Nat
  branches : List PollBranch
deriving DecidableEq, Repr

/-- rivaliq_functions.py, `check_bulkDownload_status` (lines 192-220).
`stream i` is the HTTP response to the i-th status query; `fuel` bounds
the recursion depth (the source has no bound).  Faithful points:
the ready branch returns `data['href']`; the status-3 branch first
evaluates `print(f"Error: {response['status_code']}")`, and subscripting
a `requests.Response` raises `TypeError`, so the subsequent
`raise Exception("Download Failed! ...")` line never runs; the
in-progress branch sleeps 60 seconds (hard-coded) and recurses; the final
`else` would likewise raise `TypeError` from `response['status_code']`. -/
def check_bulkDownload_status : (Nat → HttpResponse) → Nat → PollTrace
  | _, 0 => ⟨.outOfFuel, 0, [], []⟩
  | stream, fuel + 1 =>
    match get_bulkDownload_status (stream 0) with
    | .error e => ⟨.raised e, 1, [], []⟩
    | .ok response =>
      if response.status_code = 200 then
        if response.jsonStatus = 2 then
          ⟨.link response.jsonHref, 1, [], [.ready]⟩
        else if response.jsonStatus = 3 then
          ⟨.raised (.typeError "Response object is not subscriptable"), 1, [], [.failed]⟩
        else
          let t := check_bulkDownload_status (fun n => stream (n + 1)) fuel
          ⟨t.result, t.queries + 1, 60 :: t.sleeps, .inProgress :: t.branches⟩
      else
        ⟨.raised (.typeError "Response object is not subscriptable"), 1, [], [.non200]⟩

/-- rivaliq_functions.py, `download_bulkSocialPosts_csv` (lines 222-273),
result path only (the `save_csv` file write is local I/O that no claim
touches).  On a 200 response the body is parsed with `pd.read_csv`; all
three `except` clauses (`EmptyDataError`, `ParserError`, catch-all
`Exception`) set `df = None`; `df` is returned.  On a non-200 response
the function prints a message and falls off the end, returning `None`.
No path raises. -/
def download_bulkSocialPosts_csv (r : HttpResponse) : Except PyError (Option Table) :=
  if r.status_code = 200 then
    match read_csv r.text with
    | .ok df => .ok (some df)
    | .error _ => .ok none
  else
    .ok none

/-- A Python value as far as `post_followCompanies` inspects its inputs:
`isinstance(companyId, int)` distinguishes integers from everything
else. -/
inductive PyVal where
  | int (n : Int)
  | str (s : String)
deriving DecidableEq, Repr

/-- `isinstance(v, int)`. -/
def PyVal.isInt : PyVal → Bool
  | .int _ => true
  | .str _ => false

/-- Outcome of `post_followCompanies`: either one of the two validation
`raise Exception(...)` statements fired before any HTTP request was
issued, or the HTTP POST was issued and then either succeeded (200) or
raised on the response status. -/
inductive FollowResult where
  | raisedBeforeRequest (msg : String)
  | requestIssued (outcome : Except PyError Unit)
deriving Repr

/-- rivaliq_functions.py, `post_followCompanies` (lines 408-444).
`respStatus` is the HTTP status code the remote would return if the POST
is issued.  The length check (`> 10`) runs first, then the
all-integers check, and only then the request. -/
def post_followCompanies (companyIds : List PyVal) (respStatus : Nat) : FollowResult :=
  if companyIds.length > 10 then
    .raisedBeforeRequest "At most 10 companies can be followed at a time."
  else if !(companyIds.all PyVal.isInt) then
    .raisedBeforeRequest "All company IDs must be integers."
  else if respStatus = 200 then
    .requestIssued (.ok ())
  else
    .requestIssued (.error (.exn ("Error: " ++ toString respStatus)))

/-- ASCII whitespace as matched by the regex class `\s` (space, tab,
newline, carriage return, vertical tab, form feed); the model is
restricted to ASCII input. -/
def pyWhitespace (c : Char) : Bool :=
  c.toNat = 32 || c.toNat = 9 || c.toNat = 10 || c.toNat = 13 ||
    c.toNat = 11 || c.toNat = 12

/-- A character accepted by the regex character class of
vee_mails.py line 270/272, i.e. not whitespace and none of the six
excluded characters (codes 60, 62, 34, 39, 40, 41: the two angle
brackets, double quote, apostrophe, and the two parentheses). -/
def urlChar (c : Char) : Bool :=
  !(pyWhitespace c || c.toNat = 60 || c.toNat = 62 || c.toNat = 34 ||
      c.toNat = 39 || c.toNat = 40 || c.toNat = 41)

/-- Longest run of `urlChar` characters at the head of the list, with the
rest. -/
def takeUrlRun : List Char → List Char × List Char
  | [] => ([], [])
  | c :: cs =>
    if urlChar c then
      let (run, rest) := takeUrlRun cs
      (c :: run, rest)
    else ([], c :: cs)

/-- Strip a literal off the head of the list, returning the rest, or
`none` when the literal is not a head of the list. -/
def stripLit : List Char → List Char → Option (List Char)
  | [], cs => some cs
  | _ :: _, [] => none
  | l :: ls, c :: cs => if l == c then stripLit ls cs else none

/-- Greedy regex match at the head of the list for the pattern
"the literal `lit` followed by one or more `urlChar` characters" (this is
the shape of both patterns of `extract_url_from_body`: `re.escape`
makes `base_url` a literal).  Returns the matched text and the rest. -/
def matchLitThenRun (lit : List Char) (cs : List Char) : Option (List Char × List Char) :=
  match stripLit lit cs with
  | none => none
  | some rest =>
    let (run, rest') := takeUrlRun rest
    if run.isEmpty then none else some (lit ++ run, rest')

/-- Match at the head of the list for the default pattern
`https?://[^\s<>"\x27()]+` of vee_mails.py line 270: the regex engine
prefers the match with the optional `s` and falls back to the one
without it. -/
def matchHttpUrl (cs : List Char) : Option (List Char × List Char) :=
  match matchLitThenRun "https://".data cs with
  | some r => some r
  | none => matchLitThenRun "http://".data cs

/-- `re.findall` scanning: try a match at each position from the left;
on a match emit it and resume after it (matches never overlap), otherwise
advance one character.  `fuel` is the input length, enough because every
step consumes at least one character. -/
def findallAux (m : List Char → Option (List Char × List Char)) :
    Nat → List Char → List String
  | 0, _ => []
  | _, [] => []
  | fuel + 1, c :: cs =>
    match m (c :: cs) with
    | some (mtch, rest) => String.mk mtch :: findallAux m fuel rest
    | none => findallAux m fuel cs

/-- `re.findall(pattern, body)` for the two patterns of
`extract_url_from_body`: the default URL pattern when `base_url` is
`None`, else the escaped `base_url` followed by the same character
class. -/
def re_findall_url (base_url : Option String) (body : String) : List String :=
  let m := match base_url with
    | none => matchHttpUrl
    | some b => matchLitThenRun b.data
  findallAux m body.length body.data

/-- vee_mails.py, `VEEmail.extract_url_from_body` (lines 244-282): run
`re.findall`; exactly one match is returned, zero matches raise
`ValueError("No URL found in the email content.")`, more than one raises
`ValueError("More than one URL found in the email content.")`. -/
def extract_url_from_body (body : String) (base_url : Option String) :
    Except PyError String :=
  let urls := re_findall_url base_url body
  match urls with
  | [u] => .ok u
  | [] => .error (.valueError "No URL found in the email content.")
  | _ => .error (.valueError "More than one URL found in the email content.")

/-- `'needle' in haystack` for Python strings restricted to a head
position: does `need` start `hay`? -/
def startsWithChars : List Char → List Char → Bool
  | _, [] => true
  | [], _ :: _ => false
  | c :: cs, d :: ds => (c == d) && startsWithChars cs ds

/-- Python substring test `need in hay` on character lists. -/
def containsChars : List Char → List Char → Bool
  | [], need => need.isEmpty
  | c :: cs, need => startsWithChars (c :: cs) need || containsChars cs need

/-- Python substring test `key in line` for strings. -/
def containsSub (line key : String) : Bool := containsChars line.data key.data

/-- The default `key_columns` of `VEEmail.parse_csv` (vee_mails.py
line 376). -/
def default_key_columns : List String := ["Day", "Media Owner", "Venue Type", "Advertiser"]

/-- vee_mails.py, `VEEmail.parse_csv` (lines 355-408): split the content
into lines, find the index of the first line that contains every key
column as a substring (`header_row_index`, left as `None` when no line
matches — the `raise ValueError` for that case is commented out in the
source), then parse `'\n'.join(lines[header_row_index:])` with
`pd.read_csv`.  Python slicing with a `None` start is legal and yields
the whole list, so a missing header row parses the entire content. -/
def parse_csv (csv_content : String) (key_columns : Option (List String)) :
    Except PdError Table :=
  let keys := match key_columns with
    | none => default_key_columns
    | some ks => ks
  let lines := splitLines csv_content
  let header_row_index : Option Nat :=
    lines.findIdx? (fun line => keys.all (fun k => containsSub line k))
  let sliced := match header_row_index with
    | some i => lines.drop i
    | none => lines
  read_csv (joinWith "\n" sliced)

/-- A status-endpoint response reporting "in progress" (status 1). -/
def inProgressResp : HttpResponse := ⟨200, "", 1, ""⟩

/-- A status-endpoint response reporting "ready" (status 2) with a
download link. -/
def readyResp : HttpResponse := ⟨200, "", 2, "https://example.com/download.csv"⟩

/-- A status-endpoint response reporting "failed" (status 3). -/
def failedResp : HttpResponse := ⟨200, "", 3, ""⟩

/-- A poll-response stream that reports "in progress" for the first `n`
queries and "ready" from query `n` on. -/
def stepStream (n : Nat) : Nat → HttpResponse :=
  fun i => if i < n then inProgressResp else readyResp

/-- Claim C1 (code_bug, code evaluated at the failing input): for a
remote that reports a status other than 2 and 3 on every poll, the source
`check_bulkDownload_status` never stops: for every fuel bound it is still
polling (`outOfFuel`), having performed `fuel` queries and slept 60
seconds between consecutive ones.  It has no `maxWaitSeconds` parameter
and no path that raises a timeout error, contrary to the claim that it
raises `PollTimeoutError` once `maxWaitSeconds` elapses. -/
theorem check_bulkDownload_status_no_timeout :
    ∀ (fuel : Nat) (stream : Nat → HttpResponse),
      (∀ i, (stream i).status_code = 200 ∧
            (stream i).jsonStatus ≠ 2 ∧ (stream i).jsonStatus ≠ 3) →
      check_bulkDownload_status stream fuel =
        ⟨.outOfFuel, fuel, List.replicate fuel 60, List.replicate fuel .inProgress⟩ := by
  intro fuel
  induction fuel with
  | zero => intro stream h; rfl
  | succ n ih =>
    intro stream h
    obtain ⟨h200, h2, h3⟩ := h 0
    simp [check_bulkDownload_status, get_bulkDownload_status, h200, h2, h3,
      ih (fun k => stream (k + 1)) (fun i => h (i + 1)), List.replicate_succ]

/-- Witness for C1: three consecutive "in progress" responses give three
queries, three 60-second sleeps, and no answer. -/
theorem check_bulkDownload_status_no_timeout_witness :
    check_bulkDownload_status (fun _ => inProgressResp) 3 =
      ⟨.outOfFuel, 3, List.replicate 3 60, List.replicate 3 .inProgress⟩ :=
  check_bulkDownload_status_no_timeout 3 (fun _ => inProgressResp)
    (fun _ => ⟨rfl, by simp [inProgressResp], by simp [inProgressResp]⟩)

/-- Claim C2 (code_bug, code evaluated at the failing input): when the
first poll response reports status 3, the loop stops after exactly one
query, but the exception raised is the runtime `TypeError` from
`print(f"Error: {response['status_code']}")` (a `requests.Response` is
not subscriptable) — the `raise Exception("Download Failed! ...")` line
that would report the download failure is unreachable. -/
theorem check_status3_raises_typeError :
    ∀ (fuel : Nat) (stream : Nat → HttpResponse),
      (stream 0).status_code = 200 → (stream 0).jsonStatus = 3 →
      check_bulkDownload_status stream (fuel + 1) =
        ⟨.raised (.typeError "Response object is not subscriptable"), 1, [], [.failed]⟩ := by
  intro fuel stream h200 h3
  simp [check_bulkDownload_status, get_bulkDownload_status, h200, h3]

/-- Witness for C2: a first response with status 3. -/
theorem check_status3_raises_typeError_witness :
    check_bulkDownload_status (fun _ => failedResp) 1 =
      ⟨.raised (.typeError "Response object is not subscriptable"), 1, [], [.failed]⟩ :=
  check_status3_raises_typeError 0 (fun _ => failedResp) rfl rfl

/-- Claim C3 counterexample: with one "in progress" response and then a
"ready" one, the wait between the two queries is the hard-coded 60
seconds.  The function takes no poll-interval parameter, so the
caller-configured `pollIntervalSeconds` of the claim (for instance 1
second) is not what is waited. -/
theorem check_interval_not_configurable_cex :
    (check_bulkDownload_status (stepStream 1) 2).sleeps = [60] ∧
    (check_bulkDownload_status (stepStream 1) 2).sleeps ≠ [1] :=
  ⟨rfl, by decide⟩

/-- Claim C3 as amended: for a remote that reports "in progress" N times
and then "ready", `check_bulkDownload_status` performs exactly N+1 status
queries and waits a fixed 60 seconds (hard-coded, not caller-configured)
between consecutive queries, returning the download link. -/
theorem check_polls_n_plus_one :
    ∀ (N : Nat) (stream : Nat → HttpResponse) (fuel : Nat),
      (∀ i, i < N → (stream i).status_code = 200 ∧
            (stream i).jsonStatus ≠ 2 ∧ (stream i).jsonStatus ≠ 3) →
      (stream N).status_code = 200 → (stream N).jsonStatus = 2 →
      N + 1 ≤ fuel →
      check_bulkDownload_status stream fuel =
        ⟨.link (stream N).jsonHref, N + 1, List.replicate N 60,
          List.replicate N .inProgress ++ [.ready]⟩ := by
  intro N
  induction N with
  | zero =>
    intro stream fuel hin h200 h2 hfuel
    cases fuel with
    | zero => exact absurd hfuel (Nat.not_succ_le_zero _)
    | succ f =>
      simp [check_bulkDownload_status, get_bulkDownload_status, h200, h2]
  | succ n ih =>
    intro stream fuel hin h200 h2 hfuel
    cases fuel with
    | zero => exact absurd hfuel (Nat.not_succ_le_zero _)
    | succ f =>
      obtain ⟨g200, g2, g3⟩ := hin 0 (Nat.succ_pos n)
      have hrec := ih (fun k => stream (k + 1)) f
        (fun i hi => hin (i + 1) (Nat.succ_lt_succ hi)) h200 h2
        (Nat.le_of_succ_le_succ hfuel)
      simp [check_bulkDownload_status, get_bulkDownload_status, g200, g2, g3,
        hrec, List.replicate_succ]

/-- Witness for C3's amended theorem: two "in progress" responses then a
"ready" one give three queries and two 60-second waits. -/
theorem check_polls_n_plus_one_witness :
    check_bulkDownload_status (stepStream 2) 5 =
      ⟨.link (stepStream 2 2).jsonHref, 3, List.replicate 2 60,
        List.replicate 2 .inProgress ++ [.ready]⟩ :=
  check_polls_n_plus_one 2 (stepStream 2) 5
    (fun i hi => by simp [stepStream, hi, inProgressResp]) rfl rfl (by decide)

/-- Claim C9: `get_bulkDownload_status` either raises or returns a
response whose HTTP status code is 200, so the final `else` of
`check_bulkDownload_status` (the non-200 branch inside the loop) is
never taken on any response stream and any recursion depth. -/
theorem poll_non200_branch_unreachable :
    (∀ resp r, get_bulkDownload_status resp = .ok r → r.status_code = 200) ∧
    (∀ (fuel : Nat) (stream : Nat → HttpResponse),
      PollBranch.non200 ∉ (check_bulkDownload_status stream fuel).branches) := by
  constructor
  · intro resp r h
    unfold get_bulkDownload_status at h
    split at h
    · next hc => cases h; exact hc
    · cases h
  · intro fuel
    induction fuel with
    | zero => intro stream; simp [check_bulkDownload_status]
    | succ n ih =>
      intro stream
      by_cases h200 : (stream 0).status_code = 200
      · by_cases h2 : (stream 0).jsonStatus = 2
        · simp [check_bulkDownload_status, get_bulkDownload_status, h200, h2]
        · by_cases h3 : (stream 0).jsonStatus = 3
          · simp [check_bulkDownload_status, get_bulkDownload_status, h200, h2, h3]
          · simp [check_bulkDownload_status, get_bulkDownload_status, h200, h2, h3,
              ih (fun k => stream (k + 1))]
      · simp [check_bulkDownload_status, get_bulkDownload_status, h200]

/-- Witness for C9: a 200 response through `get_bulkDownload_status`, and
a concrete three-step run whose trace holds no non-200 branch. -/
theorem poll_non200_branch_unreachable_witness :
    readyResp.status_code = 200 ∧
    PollBranch.non200 ∉ (check_bulkDownload_status (stepStream 1) 3).branches :=
  ⟨poll_non200_branch_unreachable.1 readyResp readyResp rfl,
   poll_non200_branch_unreachable.2 3 (stepStream 1)⟩

/-- Claim C4 counterexample: on a 200 response with an empty body,
`download_bulkSocialPosts_csv` returns `None`, not a table with zero
rows — there is no table in the result at all. -/
theorem download_empty_body_cex :
    download_bulkSocialPosts_csv ⟨200, "", 0, ""⟩ = .ok none ∧
    ∀ t : Table, download_bulkSocialPosts_csv ⟨200, "", 0, ""⟩ ≠ .ok (some t) := by
  refine ⟨rfl, ?_⟩
  intro t h
  have he : download_bulkSocialPosts_csv ⟨200, "", 0, ""⟩ = .ok none := rfl
  rw [he] at h
  simp at h

/-- Claim C4 as amended: on a 200 response whose body the CSV reader
rejects (empty or malformed), `download_bulkSocialPosts_csv` catches the
parse error and returns `None` rather than raising; the caller
distinguishes "no rows" by the absence of a table, not by an empty
table. -/
theorem download_parse_failure_returns_none :
    ∀ (r : HttpResponse) (e : PdError),
      r.status_code = 200 → read_csv r.text = .error e →
      download_bulkSocialPosts_csv r = .ok none := by
  intro r e h200 herr
  simp [download_bulkSocialPosts_csv, h200, herr]

/-- Witness for C4's amended theorem: the empty body. -/
theorem download_parse_failure_returns_none_witness :
    download_bulkSocialPosts_csv ⟨200, "", 0, ""⟩ = .ok none :=
  download_parse_failure_returns_none ⟨200, "", 0, ""⟩ .emptyData rfl rfl

/-- Claim C5 counterexample: on a 404 retrieval response the function
returns the value `None` without raising any exception, contrary to the
claim that it raises a `RemoteRequestError` rather than returning a
value. -/
theorem download_non200_cex :
    download_bulkSocialPosts_csv ⟨404, "server error", 0, ""⟩ = .ok none ∧
    ∀ e : PyError, download_bulkSocialPosts_csv ⟨404, "server error", 0, ""⟩ ≠ .error e := by
  refine ⟨rfl, ?_⟩
  intro e h
  have he : download_bulkSocialPosts_csv ⟨404, "server error", 0, ""⟩ = .ok none := rfl
  rw [he] at h
  simp at h

/-- Claim C5 as amended: on every non-200 retrieval response,
`download_bulkSocialPosts_csv` prints the status code and returns `None`;
no exception is raised and no table is returned. -/
theorem download_non200_returns_none :
    ∀ r : HttpResponse, r.status_code ≠ 200 →
      download_bulkSocialPosts_csv r = .ok none := by
  intro r h
  simp [download_bulkSocialPosts_csv, h]

/-- Witness for C5's amended theorem: a 404 response. -/
theorem download_non200_returns_none_witness :
    download_bulkSocialPosts_csv ⟨404, "server error", 0, ""⟩ = .ok none :=
  download_non200_returns_none ⟨404, "server error", 0, ""⟩ (by decide)

/-- Claim C6: on a 200 response whose body is the two-row CSV text
"a,b\n1,2\n3,4", `download_bulkSocialPosts_csv` returns the table with
columns ["a", "b"] and rows [["1", "2"], ["3", "4"]], cells kept as
strings, in that order. -/
theorem download_two_row_csv :
    download_bulkSocialPosts_csv ⟨200, "a,b\n1,2\n3,4", 0, ""⟩ =
      .ok (some ⟨["a", "b"], [["1", "2"], ["3", "4"]]⟩) := rfl

/-- Claim C7: `post_followCompanies` raises before issuing any HTTP
request when more than 10 company IDs are passed, and for at most 10 IDs
that are all integers it proceeds to issue the request (whatever the
remote then answers). -/
theorem post_followCompanies_limit :
    ∀ (ids : List PyVal) (respStatus : Nat),
      (10 < ids.length →
        post_followCompanies ids respStatus =
          .raisedBeforeRequest "At most 10 companies can be followed at a time.") ∧
      (ids.length ≤ 10 → ids.all PyVal.isInt = true →
        ∃ o, post_followCompanies ids respStatus = .requestIssued o) := by
  intro ids respStatus
  constructor
  · intro h
    simp [post_followCompanies, h]
  · intro hle hint
    have hgt : ¬ ids.length > 10 := by omega
    by_cases hs : respStatus = 200
    · exact ⟨.ok (), by simp [post_followCompanies, hgt, hint, hs]⟩
    · exact ⟨.error (.exn ("Error: " ++ toString respStatus)),
        by simp [post_followCompanies, hgt, hint, hs]⟩

/-- Witness for C7: 11 IDs raise before the request; 2 integer IDs lead
to a request. -/
theorem post_followCompanies_limit_witness :
    post_followCompanies (List.replicate 11 (PyVal.int 1)) 200 =
      .raisedBeforeRequest "At most 10 companies can be followed at a time." ∧
    ∃ o, post_followCompanies [PyVal.int 1, PyVal.int 2] 200 = .requestIssued o :=
  ⟨(post_followCompanies_limit (List.replicate 11 (PyVal.int 1)) 200).1 (by decide),
   (post_followCompanies_limit [PyVal.int 1, PyVal.int 2] 200).2 (by decide) (by decide)⟩

/-- Claim C8: `extract_url_from_body` returns the matched URL when the
pattern (the default URL pattern, or the `base_url`-prefixed one when a
base is given) has exactly one match in the body, and raises `ValueError`
when it has zero matches or more than one. -/
theorem extract_url_from_body_cases :
    ∀ (body : String) (base : Option String),
      (∀ u, re_findall_url base body = [u] →
        extract_url_from_body body base = .ok u) ∧
      (re_findall_url base body = [] →
        extract_url_from_body body base =
          .error (.valueError "No URL found in the email content.")) ∧
      (2 ≤ (re_findall_url base body).length →
        extract_url_from_body body base =
          .error (.valueError "More than one URL found in the email content.")) := by
  intro body base
  refine ⟨?_, ?_, ?_⟩
  · intro u h
    simp [extract_url_from_body, h]
  · intro h
    simp [extract_url_from_body, h]
  · intro h
    match hu : re_findall_url base body with
    | [] => rw [hu] at h; simp at h
    | [u] => rw [hu] at h; simp at h
    | u :: v :: rest => simp [extract_url_from_body, hu]

/-- Witness for C8: a body with exactly one URL. -/
theorem extract_url_from_body_cases_witness :
    extract_url_from_body "Check out https://example.com today" none =
      .ok "https://example.com" :=
  (extract_url_from_body_cases "Check out https://example.com today" none).1
    "https://example.com" rfl

/-- Claim C10 counterexample: for content "x,y\n1,2", no line contains
all the default key columns, so `header_row_index` stays `None`; yet
`parse_csv` neither fails with a `TypeError` nor raises `ValueError` —
Python list slicing with a `None` start yields the whole list, and the
whole content is parsed into a table. -/
theorem parse_csv_missing_header_cex :
    ((splitLines "x,y\n1,2").findIdx?
        (fun line => default_key_columns.all (fun k => containsSub line k)) = none) ∧
    parse_csv "x,y\n1,2" none = .ok ⟨["x", "y"], [["1", "2"]]⟩ :=
  ⟨rfl, rfl⟩

/-- Claim C10 as amended: when no line of `csv_content` contains every
key column as a substring, `header_row_index` is never set, and
`parse_csv` parses the entire content from its first line (the slice
`lines[None:]` is the whole list); there is no type error and no
`ValueError`. -/
theorem parse_csv_missing_header_parses_all :
    ∀ (content : String) (kc : Option (List String)),
      ((splitLines content).findIdx?
          (fun line =>
            (match kc with
              | none => default_key_columns
              | some ks => ks).all (fun k => containsSub line k)) = none) →
      parse_csv content kc = read_csv (joinWith "\n" (splitLines content)) := by
  intro content kc h
  simp [parse_csv, h]

/-- Witness for C10's amended theorem: a key column that occurs in no
line. -/
theorem parse_csv_missing_header_parses_all_witness :
    parse_csv "x,y" (some ["ZZZ"]) = read_csv (joinWith "\n" (splitLines "x,y")) :=
  parse_csv_missing_header_parses_all "x,y" (some ["ZZZ"]) rfl

end Veetility
